import Mathlib

/-!
Shallow embedding of the order-fulfillment core of the Peach-flask-store
backend (src/controllers/orderController.js) and proofs about it.

Modelling conventions:
- JavaScript numbers are modelled as integers (`Int`) at the currency's
  minor-unit precision: every amount, price, quantity and stock counter in the
  claims is an exact integer, and on integers the JS arithmetic and strict
  comparisons the controller performs coincide with `Int` arithmetic.
- Mongo documents are modelled as Lean structures; a product collection is a
  `List Product` and `save` writes a document back by id.
- Fields that JavaScript may leave `undefined` are `Option`s; the JS truthiness
  test `!x` on such a field is `falsyStr` / `falsyNum` below.
- Thrown JS errors become explicit result constructors; the controller catches
  every throw and maps it to an HTTP error response, so the distinct error
  messages of the source are modelled as distinct constructors.
-/

namespace PeachStore

/-- A product document as the order controller sees it
(src/models: id, name, unit price, stock counter). -/
structure Product where
  id : Nat
  name : String
  price : Int
  stock : Int
deriving Repr, DecidableEq

/-- The product collection. -/
abbrev ProductDB := List Product

/-- `Product.find` / `products.find(p => p._id.equals(item.id))`: look a product
up by id. -/
def findProduct (db : ProductDB) (pid : Nat) : Option Product :=
  db.find? (fun p => p.id == pid)

/-- `product.save()`: write a document back into the collection by id. -/
def saveProduct (db : ProductDB) (p : Product) : ProductDB :=
  db.map (fun q => if q.id == p.id then p else q)

/-- A requested line item of the creation request: product id and quantity. -/
structure Item where
  id : Nat
  quantity : Int
deriving Repr, DecidableEq

/-- The per-item snapshot pushed onto the order by `processOrderItems`. -/
structure OrderItem where
  product : Nat
  name : String
  quantity : Int
  price : Int
deriving Repr, DecidableEq

/-- Order status strings used by the controller. -/
inductive OrderStatus where
  | Processing
  | Shipped
  | Delivered
  | Cancelled
  | Tracking
deriving Repr, DecidableEq

/-- The payment-result snapshot stored by `updateOrderFromPayment`:
transaction id, provider status, update time and the raw provider payload. -/
structure PaymentResult where
  id : String
  status : String
  update_time : String
  rawData : List (String × String)
deriving Repr, DecidableEq

/-- An order document (src/models order schema, fields the core mutates). -/
structure Order where
  id : String
  items : List OrderItem
  subtotal : Int
  shippingCost : Int
  discount : Int
  totalAmount : Int
  user : Option Nat
  couponUsed : Option String
  status : OrderStatus
  paymentResult : Option PaymentResult
  trackingId : Option String
  deliveredAt : Option String
deriving Repr, DecidableEq

/-- Errors thrown inside `processOrderItems`. -/
inductive ProcError where
  | productNotFound (pid : Nat)
  | insufficientStock (name : String) (available : Int)
deriving Repr, DecidableEq

/-- `processOrderItems(items, products)`, lines 250-276 of
orderController.js: walk the requested items in order; for each one, look the
product up, throw if absent, throw if `product.stock < item.quantity`,
otherwise decrement the in-memory stock, `save()` it back, snapshot the item
and accumulate `price * quantity` into the running subtotal.  The returned
`ProductDB` is the collection state at the moment the function returns or
throws: the source performs no rollback, so decrements saved before a throw
stay saved. -/
def processOrderItems : List Item → ProductDB →
    Except (ProcError × ProductDB) (List OrderItem × Int × ProductDB)
  | [], db => .ok ([], 0, db)
  | item :: rest, db =>
    match findProduct db item.id with
    | none => .error (.productNotFound item.id, db)
    | some product =>
      if product.stock < item.quantity then
        .error (.insufficientStock product.name product.stock, db)
      else
        let db1 := saveProduct db { product with stock := product.stock - item.quantity }
        match processOrderItems rest db1 with
        | .ok (ois, sub, db2) =>
          .ok ({ product := product.id, name := product.name,
                 quantity := item.quantity, price := product.price } :: ois,
               product.price * item.quantity + sub, db2)
        | .error e => .error e

/-- JS truthiness of an optional string field: `undefined` and the empty
string are falsy. -/
def falsyStr : Option String → Bool
  | none => true
  | some s => s == ""

/-- JS truthiness of an optional numeric field: `undefined` and `0` are
falsy. -/
def falsyNum : Option Int → Bool
  | none => true
  | some x => x == 0

/-- The request body of `createOrder` (the fields the controller reads). -/
structure Body where
  email : Option String
  phone : Option String
  name : Option String
  subtotal : Option Int
  shippingCost : Option Int
  discount : Option Int
  totalAmount : Option Int
  hasShippingAddress : Bool
  items : List Item
  couponCode : Option String
deriving Repr, DecidableEq

/-- The `requiredFields` array of `createOrder`, line 22. -/
def requiredFields : List String :=
  ["email", "phone", "name", "subtotal", "shippingCost", "shippingAddress", "totalAmount"]

/-- `!req.body[field]` for each required field name: JS truthiness of the
field value (a present-but-zero number and a present-but-empty string are
falsy; `shippingAddress` is an object, truthy when present). -/
def fieldFalsy (b : Body) : String → Bool
  | "email" => falsyStr b.email
  | "phone" => falsyStr b.phone
  | "name" => falsyStr b.name
  | "subtotal" => falsyNum b.subtotal
  | "shippingCost" => falsyNum b.shippingCost
  | "shippingAddress" => !b.hasShippingAddress
  | "totalAmount" => falsyNum b.totalAmount
  | _ => true

/-- `requiredFields.filter(field => !req.body[field])`, line 25. -/
def missingFields (b : Body) : List String :=
  requiredFields.filter (fieldFalsy b)

/-- `validateOrderAmounts(amounts, calculatedSubtotal)`, lines 278-284:
`calculatedTotal = calculatedSubtotal + amounts.shippingCost - amounts.discount`
and mismatch when `amounts.totalAmount !== calculatedTotal`.  When the client
omits `discount`, the JS arithmetic yields `NaN` and the strict inequality is
always true, so an absent discount always mismatches. -/
def amountsMismatch (shippingCost : Int) (discount : Option Int)
    (totalAmount : Int) (calculatedSubtotal : Int) : Bool :=
  match discount with
  | none => true
  | some d => totalAmount != calculatedSubtotal + shippingCost - d

/-- The outcome of `handleCoupon(couponCode, user)`, lines 286-297. -/
inductive CouponResult where
  | noCoupon
  | requiresAuth
  | invalid
  | found (code : String)
deriving Repr, DecidableEq

/-- `handleCoupon`, lines 286-297: a falsy coupon code means no coupon; a
coupon code without an authenticated user throws
`Authentication required for coupon use`; otherwise the code is uppercased and
looked up, throwing `Invalid or expired coupon` when absent.  The coupon
collection is a list of (uppercase) codes. -/
def handleCoupon (couponCode : Option String) (user : Option Nat)
    (coupons : List String) : CouponResult :=
  match couponCode with
  | none => .noCoupon
  | some code =>
    if code == "" then .noCoupon
    else match user with
    | none => .requiresAuth
    | some _ =>
      if coupons.contains code.toUpper then .found code.toUpper else .invalid

/-- The possible outcomes of `createOrder` that the model distinguishes; each
error constructor corresponds to one distinct error message of the source. -/
inductive CreateResult where
  | validationError (missing : List String)
  | noItems
  | productNotFound (pid : Nat)
  | insufficientStock (name : String) (available : Int)
  | amountMismatch
  | couponRequiresAuth
  | couponInvalid
  | created (order : Order)
deriving Repr, DecidableEq

/-- `createOrder`, lines 16-72 of orderController.js: required-field check
(missing when falsy), empty-items check, `processOrderItems` (which decrements
stock as it goes), `validateOrderAmounts` against the recomputed subtotal,
`handleCoupon`, then the order document is built by `createOrderDocument`
(lines 299-319) from the CLIENT-side `amounts` fields and saved with status
`Processing`.  Every throw after `processOrderItems` began is caught by the
surrounding try/catch without touching the product collection again, so the
returned `ProductDB` is the collection as the failed or successful attempt
left it. -/
def createOrder (db : ProductDB) (coupons : List String) (user : Option Nat)
    (b : Body) : CreateResult × ProductDB :=
  if (missingFields b).length > 0 then (.validationError (missingFields b), db)
  else if b.items.isEmpty then (.noItems, db)
  else
    match processOrderItems b.items db with
    | .error (.productNotFound pid, db1) => (.productNotFound pid, db1)
    | .error (.insufficientStock n a, db1) => (.insufficientStock n a, db1)
    | .ok (orderItems, calculatedSubtotal, db1) =>
      if amountsMismatch (b.shippingCost.getD 0) b.discount
          (b.totalAmount.getD 0) calculatedSubtotal then
        (.amountMismatch, db1)
      else
        match handleCoupon b.couponCode user coupons with
        | .requiresAuth => (.couponRequiresAuth, db1)
        | .invalid => (.couponInvalid, db1)
        | c =>
          (.created {
              id := "",
              items := orderItems,
              subtotal := b.subtotal.getD 0,
              shippingCost := b.shippingCost.getD 0,
              discount := b.discount.getD 0,
              totalAmount := b.totalAmount.getD 0,
              user := user,
              couponUsed := match c with | .found code => some code | _ => none,
              status := .Processing,
              paymentResult := none,
              trackingId := none,
              deliveredAt := none }, db1)

/-! ## Order status updates and restock (updateOrderStatus / handleStatusChange / restoreStock) -/

/-- Parse the status string of the request against the `validStatuses` array
of `updateOrderStatus`, line 133: an unlisted string is invalid. -/
def statusOfString : String → Option OrderStatus
  | "Processing" => some .Processing
  | "Shipped" => some .Shipped
  | "Delivered" => some .Delivered
  | "Cancelled" => some .Cancelled
  | "Tracking" => some .Tracking
  | _ => none

/-- `restoreStock(items)`, lines 375-384: one bulk update that increments each
item's product stock by the item's quantity (`$inc: { stock: item.quantity }`);
a filter matching no document is a no-op. -/
def restoreStock (items : List OrderItem) (db : ProductDB) : ProductDB :=
  items.foldl
    (fun acc item =>
      acc.map (fun p =>
        if p.id == item.product then { p with stock := p.stock + item.quantity } else p))
    db

/-- Outcome of `updateOrderStatus`. -/
inductive UpdateResult where
  | invalidStatus
  | updated (order : Order) (db : ProductDB)
deriving Repr, DecidableEq

/-- `updateOrderStatus` (lines 130-154) together with `handleStatusChange`
(lines 363-373): reject a status outside `validStatuses`; otherwise set the
order's status unconditionally (`findByIdAndUpdate`), set the tracking id only
when the request value is truthy, then run the status side effects: a
`Cancelled` target always calls `restoreStock(order.items)` — the source never
checks the order's previous status — and a `Delivered` target stamps
`deliveredAt`. -/
def updateOrderStatus (order : Order) (db : ProductDB) (status : String)
    (trackingId : Option String) (now : String) : UpdateResult :=
  match statusOfString status with
  | none => .invalidStatus
  | some st =>
    let order1 : Order :=
      { order with
        status := st,
        trackingId := match trackingId with
          | some t => if t == "" then order.trackingId else some t
          | none => order.trackingId }
    let db1 := if st = .Cancelled then restoreStock order1.items db else db
    let order2 := if st = .Delivered then { order1 with deliveredAt := some now } else order1
    .updated order2 db1

/-! ## PayFast signing, verification and webhook application -/

/-- The PayFast-related process environment read by the controller. An unset
or empty `PAYFAST_PASSPHRASE` is falsy in JS, modelled as `none`. -/
structure Env where
  merchant_id : String
  merchant_key : String
  return_url : String
  cancel_url : String
  notify_url : String
  passphrase : Option String
deriving Repr, DecidableEq

/-- Lexicographic order on character lists by code unit, the comparator
`Object.keys(...).sort()` applies to the parameter keys. -/
def charsLt : List Char → List Char → Bool
  | [], [] => false
  | [], _ :: _ => true
  | _ :: _, [] => false
  | c :: cs, d :: ds =>
    if c.toNat < d.toNat then true
    else if d.toNat < c.toNat then false
    else charsLt cs ds

/-- String comparison by code unit, as the default JS sort comparator. -/
def strLt (a b : String) : Bool :=
  charsLt a.data b.data

/-- Insert a key/value pair into a key-sorted list (lexicographic string
order, as `Object.keys(params).sort()` sorts). -/
def insertByKey (kv : String × String) : List (String × String) → List (String × String)
  | [] => [kv]
  | x :: xs => if strLt kv.1 x.1 then kv :: x :: xs else x :: insertByKey kv xs

/-- Sort a parameter list by key, the order `Object.keys(...).sort()` yields
for distinct keys. -/
def sortByKey (params : List (String × String)) : List (String × String) :=
  params.foldr insertByKey []

/-- The canonical signature string both directions build:
`sortedKeys.map(key => key + "=" + encodeURIComponent(value)).join("&")`.
`encodeURIComponent` is a fixed injective encoding applied identically on both
sides, so it is a parameter `enc` of the model. -/
def canonicalString (enc : String → String) (params : List (String × String)) : String :=
  String.intercalate "&" ((sortByKey params).map (fun kv => kv.1 ++ "=" ++ enc kv.2))

/-- `Number.prototype.toFixed(2)` on an integral amount: print with two
decimal places. -/
def toFixed2 (q : Int) : String :=
  let n : Int := q * 100
  let m := n.natAbs
  (if n < 0 then "-" else "") ++ toString (m / 100) ++ "." ++
    (if m % 100 < 10 then "0" else "") ++ toString (m % 100)

/-- The parameter set `generatePayfastPayload` signs, lines 329-342: merchant
credentials, callback URLs, order id, amount to two decimals, item name, and —
when a passphrase is configured — the passphrase added as an ordinary
parameter (`params.passphrase = ...`), which the subsequent key sort places
between `notify_url` and `return_url`. -/
def payfastParams (env : Env) (order : Order) : List (String × String) :=
  [("merchant_id", env.merchant_id),
   ("merchant_key", env.merchant_key),
   ("return_url", env.return_url),
   ("cancel_url", env.cancel_url),
   ("notify_url", env.notify_url),
   ("m_payment_id", order.id),
   ("amount", toFixed2 order.totalAmount),
   ("item_name", "Order #" ++ order.id)] ++
  (match env.passphrase with
   | some pp => [("passphrase", pp)]
   | none => [])

/-- The outbound signature of `generatePayfastPayload`, lines 344-351: the MD5
digest of the canonical string over `payfastParams`.  The digest function `h`
is a parameter of the model (the same fixed function on both directions). -/
def payfastSignature (h enc : String → String) (env : Env) (order : Order) : String :=
  h (canonicalString enc (payfastParams env order))

/-- The canonical string `verifyPayfastSignature` rebuilds, lines 417-425:
the sorted `key=value` join over the received fields, with
`&passphrase=encodeURIComponent(passphrase)` APPENDED AT THE END when a
passphrase is configured (not inserted in sorted position). -/
def inboundCanonical (enc : String → String) (env : Env)
    (data : List (String × String)) : String :=
  match env.passphrase with
  | some pp => canonicalString enc data ++ "&passphrase=" ++ enc pp
  | none => canonicalString enc data

/-- `verifyPayfastSignature(data, receivedSignature)`, lines 417-433: accept
exactly when the digest of the rebuilt canonical string equals the received
signature. -/
def verifyPayfastSignature (h enc : String → String) (env : Env)
    (data : List (String × String)) (receivedSignature : String) : Bool :=
  h (inboundCanonical enc env data) == receivedSignature

/-- Field lookup in a webhook payload (`data.pf_payment_id` etc.); an absent
field reads as the empty string. -/
def lookupField (payload : List (String × String)) (k : String) : String :=
  ((payload.find? (fun kv => kv.1 == k)).map (fun kv => kv.2)).getD ""

/-- `updateOrderFromPayment(order, data)`, lines 435-448: overwrite the
order's payment result with the snapshot (transaction id, provider status,
current time, raw payload); a `COMPLETE` provider status sets the order status
to `Processing`, a `FAILED` one sets it to `Cancelled`, any other leaves it
unchanged.  It touches nothing else — in particular no product stock. -/
def updateOrderFromPayment (order : Order) (payload : List (String × String))
    (now : String) : Order :=
  let o := { order with
    paymentResult := some {
      id := lookupField payload "pf_payment_id",
      status := lookupField payload "payment_status",
      update_time := now,
      rawData := payload } }
  if lookupField payload "payment_status" == "COMPLETE" then
    { o with status := .Processing }
  else if lookupField payload "payment_status" == "FAILED" then
    { o with status := .Cancelled }
  else o

/-- `handlePayfastNotification`, lines 158-178, acting on the referenced order
and the product collection: strip the `signature` field, verify it over the
remaining fields, reject without state change when invalid; look the order up
by `m_payment_id`, reject without state change when it is not the referenced
order; otherwise apply `updateOrderFromPayment` and save.  The handler never
touches the product collection, which the model makes explicit by returning
`db` unchanged on every path. -/
def handlePayfastNotification (h enc : String → String) (env : Env)
    (order : Order) (db : ProductDB) (payload : List (String × String))
    (signature : String) (now : String) : Order × ProductDB :=
  if verifyPayfastSignature h enc env payload signature then
    if order.id == lookupField payload "m_payment_id" then
      (updateOrderFromPayment order payload now, db)
    else (order, db)
  else (order, db)

/-! ## Interleaving model of two concurrent `processOrderItems` stock
decrements on one product (lines 255-262).

Each request handler fetches the product document (`Product.find` — the
read), then checks `product.stock < quantity` against its fetched copy,
decrements the copy and calls `product.save()`, which writes the copy's stock
back over the shared counter (the write).  A schedule is an interleaving of
the two handlers' read and write steps. -/

/-- Shared and per-request state of the two contending checkout attempts:
the shared stock counter, each attempt's fetched copy of it, and each
attempt's outcome (`some true` = item accepted and saved, `some false` =
insufficient-stock throw). -/
structure RaceState where
  stock : Int
  fetched1 : Option Int
  fetched2 : Option Int
  result1 : Option Bool
  result2 : Option Bool
deriving Repr, DecidableEq

/-- One scheduler step: one attempt performs its fetch or its
check-decrement-save. -/
inductive RaceStep where
  | read1
  | read2
  | write1
  | write2
deriving Repr, DecidableEq

/-- Execute one step.  A read copies the shared counter into the attempt's
fetched document.  A write replays lines 257-262 on the fetched copy: compare
the COPY against the demand, and on success write `copy - quantity` over the
shared counter (`save()` persists the in-memory document).  A write before the
attempt's read cannot happen in program order and is a no-op. -/
def raceStep (q1 q2 : Int) (s : RaceState) : RaceStep → RaceState
  | .read1 => { s with fetched1 := some s.stock }
  | .read2 => { s with fetched2 := some s.stock }
  | .write1 =>
    match s.fetched1 with
    | none => s
    | some v =>
      if v < q1 then { s with result1 := some false }
      else { s with stock := v - q1, result1 := some true }
  | .write2 =>
    match s.fetched2 with
    | none => s
    | some v =>
      if v < q2 then { s with result2 := some false }
      else { s with stock := v - q2, result2 := some true }

/-- Run a schedule of the two attempts (demands `q1`, `q2`) from initial
shared stock `S`. -/
def runRace (q1 q2 S : Int) (sched : List RaceStep) : RaceState :=
  sched.foldl (raceStep q1 q2) ⟨S, none, none, none, none⟩

/-! ## Theorems -/

/-- C1: the claim says concurrent order-creation attempts behave as atomic
conditional decrements, so the successful attempts' decrements can never
exceed the starting stock.  The source (lines 255-262) instead fetches the
stock, checks the fetched copy in memory and saves the copy back.  Under the
schedule in which both attempts fetch before either saves, a product with
stock 3 accepts two concurrent demands of 2 units each: both attempts commit
(result `some true`), 4 > 3 units are sold, and the counter ends at 1 having
absorbed only one of the two decrements. -/
theorem race_oversells_stock :
    (runRace 2 2 3 [.read1, .read2, .write1, .write2]).result1 = some true ∧
    (runRace 2 2 3 [.read1, .read2, .write1, .write2]).result2 = some true ∧
    (runRace 2 2 3 [.read1, .read2, .write1, .write2]).stock = 1 ∧
    (2 + 2 : Int) > 3 := by
  refine ⟨rfl, rfl, by decide, by norm_num⟩

/-- C2: the claim says a creation attempt that fails on a later line item
rolls back every earlier decrement.  Evaluating `createOrder` on two items
where the second has insufficient stock: the attempt fails with the
insufficient-stock error, yet product 1's stock stays at 4, not its original
5 — the source throws without compensating the earlier saved decrement. -/
theorem failed_creation_keeps_earlier_decrement :
    createOrder [⟨1, "A", 10, 5⟩, ⟨2, "B", 10, 1⟩] [] none
      ⟨some "e", some "p", some "n", some 60, some 10, some 5, some 65, true,
        [⟨1, 1⟩, ⟨2, 5⟩], none⟩ =
      (.insufficientStock "B" 1, [⟨1, "A", 10, 4⟩, ⟨2, "B", 10, 1⟩]) ∧
    ([⟨1, "A", 10, 4⟩, ⟨2, "B", 10, 1⟩] : ProductDB) ≠
      [⟨1, "A", 10, 5⟩, ⟨2, "B", 10, 1⟩] := by
  refine ⟨by decide, by decide⟩

/-- C3: the claim says the persisted subtotal is the server-side
recomputation, so `totalAmount = subtotal + shippingCost - discount` holds on
the persisted order.  `createOrderDocument` (lines 307-318) persists the
CLIENT-sent `amounts.subtotal`: with one item recomputing to 100 (price 50,
quantity 2), client subtotal 999, shipping 10, discount 5 and declared total
105, validation passes (105 = 100 + 10 - 5) and the persisted order carries
subtotal 999 and totalAmount 105, violating the claimed equation
(105 ≠ 999 + 10 - 5). -/
theorem persisted_subtotal_is_client_value :
    (createOrder [⟨1, "A", 50, 10⟩] [] none
      ⟨some "e", some "p", some "n", some 999, some 10, some 5, some 105, true,
        [⟨1, 2⟩], none⟩).1 =
      .created ⟨"", [⟨1, "A", 2, 50⟩], 999, 10, 5, 105, none, none,
        .Processing, none, none, none⟩ ∧
    (105 : Int) ≠ 999 + 10 - 5 := by
  refine ⟨by decide, by norm_num⟩

/-- C5: the claim says an accepted FAILED notification cancels the order AND
restores the stock of its line items.  Evaluating the webhook handler on a
signature-valid FAILED notification for an order holding 2 units of product 1
(stock 5): the order moves to `Cancelled` but the product collection is
returned unchanged at stock 5, while the restock the claim demands
(`restoreStock` over the order's items) would yield stock 7 — the webhook
path never invokes `restoreStock`. -/
theorem failed_webhook_cancels_without_restock :
    handlePayfastNotification id id ⟨"m", "k", "r", "c", "n", none⟩
        ⟨"1", [⟨1, "A", 2, 10⟩], 20, 10, 5, 25, none, none, .Processing, none, none, none⟩
        [⟨1, "A", 10, 5⟩]
        [("m_payment_id", "1"), ("payment_status", "FAILED"), ("pf_payment_id", "77")]
        "m_payment_id=1&payment_status=FAILED&pf_payment_id=77" "t" =
      (⟨"1", [⟨1, "A", 2, 10⟩], 20, 10, 5, 25, none, none, .Cancelled,
        some ⟨"77", "FAILED", "t",
          [("m_payment_id", "1"), ("payment_status", "FAILED"), ("pf_payment_id", "77")]⟩,
        none, none⟩, [⟨1, "A", 10, 5⟩]) ∧
    restoreStock [⟨1, "A", 2, 10⟩] [⟨1, "A", 10, 5⟩] = [⟨1, "A", 10, 7⟩] ∧
    ([⟨1, "A", 10, 5⟩] : ProductDB) ≠ [⟨1, "A", 10, 7⟩] := by
  refine ⟨by decide, by decide, by decide⟩

/-- C6: the claim says cancellation is idempotent — cancelling an
already-Cancelled order restores no further stock.  `updateOrderStatus` never
inspects the previous status: cancelling an order holding 2 units of product 1
(stock 1) restocks to 3, and applying `Cancelled` again to the
already-Cancelled order restocks again to 5 ≠ 3. -/
theorem double_cancel_restocks_twice :
    updateOrderStatus
        ⟨"1", [⟨1, "A", 2, 10⟩], 20, 10, 5, 25, none, none, .Processing, none, none, none⟩
        [⟨1, "A", 10, 1⟩] "Cancelled" none "t" =
      .updated
        ⟨"1", [⟨1, "A", 2, 10⟩], 20, 10, 5, 25, none, none, .Cancelled, none, none, none⟩
        [⟨1, "A", 10, 3⟩] ∧
    updateOrderStatus
        ⟨"1", [⟨1, "A", 2, 10⟩], 20, 10, 5, 25, none, none, .Cancelled, none, none, none⟩
        [⟨1, "A", 10, 3⟩] "Cancelled" none "t" =
      .updated
        ⟨"1", [⟨1, "A", 2, 10⟩], 20, 10, 5, 25, none, none, .Cancelled, none, none, none⟩
        [⟨1, "A", 10, 5⟩] ∧
    ([⟨1, "A", 10, 5⟩] : ProductDB) ≠ [⟨1, "A", 10, 3⟩] := by
  refine ⟨by decide, by decide, by decide⟩

/-- C7: the claim says a guest checkout carrying a coupon code fails with the
coupon-requires-auth error and decrements no stock.  The error is raised, but
`handleCoupon` runs only after `processOrderItems` has already decremented and
saved the stock, and nothing restores it: product 1's stock ends at 3, not its
original 5. -/
theorem guest_coupon_error_after_stock_decrement :
    createOrder [⟨1, "A", 10, 5⟩] [] none
      ⟨some "e", some "p", some "n", some 20, some 10, some 5, some 25, true,
        [⟨1, 2⟩], some "SAVE"⟩ =
      (.couponRequiresAuth, [⟨1, "A", 10, 3⟩]) ∧
    ([⟨1, "A", 10, 3⟩] : ProductDB) ≠ [⟨1, "A", 10, 5⟩] := by
  refine ⟨by decide, by decide⟩

/-- Iterating an idempotent function on a point already in its image changes
nothing. -/
theorem iterate_idem {α : Type _} (f : α → α) (hf : ∀ x, f (f x) = f x) :
    ∀ (n : ℕ) (x : α), f^[n] (f x) = f x
  | 0, _ => rfl
  | n + 1, x => by rw [Function.iterate_succ_apply, hf, iterate_idem f hf n]

/-- `updateOrderFromPayment` never changes the order id. -/
theorem updateOrderFromPayment_id (o : Order) (p : List (String × String))
    (t : String) : (updateOrderFromPayment o p t).id = o.id := by
  unfold updateOrderFromPayment
  dsimp only
  split_ifs <;> rfl

/-- Applying the same payment snapshot twice equals applying it once: the
payment result is overwritten wholesale and the status map
(COMPLETE ↦ Processing, FAILED ↦ Cancelled, otherwise unchanged) is
idempotent. -/
theorem updateOrderFromPayment_idem (o : Order) (p : List (String × String))
    (t : String) :
    updateOrderFromPayment (updateOrderFromPayment o p t) p t =
      updateOrderFromPayment o p t := by
  unfold updateOrderFromPayment
  dsimp only
  split_ifs <;> rfl

/-- One webhook delivery is idempotent as a transformation of the pair
(referenced order, product collection). -/
theorem handlePayfastNotification_idem (h enc : String → String) (env : Env)
    (payload : List (String × String)) (signature now : String)
    (od : Order × ProductDB) :
    handlePayfastNotification h enc env
        (handlePayfastNotification h enc env od.1 od.2 payload signature now).1
        (handlePayfastNotification h enc env od.1 od.2 payload signature now).2
        payload signature now =
      handlePayfastNotification h enc env od.1 od.2 payload signature now := by
  unfold handlePayfastNotification
  cases hv : verifyPayfastSignature h enc env payload signature
  · simp
  · cases hid : od.1.id == lookupField payload "m_payment_id"
    · simp [hid]
    · simp [hid, updateOrderFromPayment_id, updateOrderFromPayment_idem]

/-- C4: replaying one identical payment webhook notification N times (N ≥ 1)
leaves the referenced order and the product collection exactly as one
application leaves them: the handler re-verifies the same signature, looks up
the same order (whose id the application never changes), overwrites the same
payment-result snapshot and recomputes the same status, and it never touches
product stock, so there is nothing to double-restock or double-decrement. -/
theorem webhook_replay_idempotent (h enc : String → String) (env : Env)
    (order : Order) (db : ProductDB) (payload : List (String × String))
    (signature now : String) (n : ℕ) (hn : 1 ≤ n) :
    (fun od : Order × ProductDB =>
        handlePayfastNotification h enc env od.1 od.2 payload signature now)^[n]
      (order, db) =
    handlePayfastNotification h enc env order db payload signature now := by
  obtain ⟨k, rfl⟩ : ∃ k, n = k + 1 := ⟨n - 1, (Nat.succ_pred_eq_of_pos hn).symm⟩
  rw [Function.iterate_succ_apply]
  exact iterate_idem _
    (fun od => handlePayfastNotification_idem h enc env payload signature now od)
    k (order, db)

/-- Witness for C4 at a concrete notification replayed twice. -/
theorem webhook_replay_idempotent_witness :
    (fun od : Order × ProductDB =>
        handlePayfastNotification id id ⟨"m", "k", "r", "c", "n", none⟩ od.1 od.2
          [("m_payment_id", "1"), ("payment_status", "FAILED"), ("pf_payment_id", "77")]
          "m_payment_id=1&payment_status=FAILED&pf_payment_id=77" "t")^[2]
      (⟨"1", [⟨1, "A", 2, 10⟩], 20, 10, 5, 25, none, none, .Processing, none, none, none⟩,
        [⟨1, "A", 10, 5⟩]) =
    handlePayfastNotification id id ⟨"m", "k", "r", "c", "n", none⟩
      ⟨"1", [⟨1, "A", 2, 10⟩], 20, 10, 5, 25, none, none, .Processing, none, none, none⟩
      [⟨1, "A", 10, 5⟩]
      [("m_payment_id", "1"), ("payment_status", "FAILED"), ("pf_payment_id", "77")]
      "m_payment_id=1&payment_status=FAILED&pf_payment_id=77" "t" :=
  webhook_replay_idempotent id id _ _ _ _ _ _ 2 (by norm_num)

/-- C8: for a creation request that passes the required-field check and whose
items all process successfully (recomputed subtotal `calcSubtotal`), creation
fails with the amount-mismatch error exactly when the client-declared total is
not equal to the recomputed subtotal plus the declared shipping cost minus the
declared discount. -/
theorem amount_mismatch_iff (db : ProductDB) (coupons : List String)
    (user : Option Nat) (b : Body) (ois : List OrderItem) (calcSubtotal : Int)
    (db1 : ProductDB) (s d t : Int)
    (hmiss : missingFields b = [])
    (hitems : b.items ≠ [])
    (hproc : processOrderItems b.items db = .ok (ois, calcSubtotal, db1))
    (hs : b.shippingCost = some s) (hd : b.discount = some d)
    (ht : b.totalAmount = some t) :
    ((createOrder db coupons user b).1 = .amountMismatch ↔
      t ≠ calcSubtotal + s - d) := by
  have hie : b.items.isEmpty = false := by
    cases hb : b.items with
    | nil => exact absurd hb hitems
    | cons x xs => rfl
  unfold createOrder
  rw [hmiss]
  simp only [List.length_nil, gt_iff_lt, lt_self_iff_false, if_false, hie,
    Bool.false_eq_true, hproc]
  rw [hs, hd, ht]
  simp only [Option.getD_some]
  by_cases hne : t = calcSubtotal + s - d
  · have hb : amountsMismatch s (some d) t calcSubtotal = false := by
      simp [amountsMismatch, hne]
    rw [hb]
    simp only [Bool.false_eq_true, if_false]
    cases hcp : handleCoupon b.couponCode user coupons <;> simp [hne]
  · have hb : amountsMismatch s (some d) t calcSubtotal = true := by
      simp [amountsMismatch, hne]
    rw [hb]
    simp [hne]

/-- Witness for C8 at the spec's own example: recomputed subtotal 100 (price
50 × quantity 2), shipping 10, discount 5; declared total 106 is rejected
with the amount mismatch and declared total 105 yields a created order. -/
theorem amount_mismatch_iff_witness :
    (createOrder [⟨1, "A", 50, 10⟩] [] none
      ⟨some "e", some "p", some "n", some 100, some 10, some 5, some 106, true,
        [⟨1, 2⟩], none⟩).1 = .amountMismatch ∧
    (createOrder [⟨1, "A", 50, 10⟩] [] none
      ⟨some "e", some "p", some "n", some 100, some 10, some 5, some 105, true,
        [⟨1, 2⟩], none⟩).1 =
      .created ⟨"", [⟨1, "A", 2, 50⟩], 100, 10, 5, 105, none, none,
        .Processing, none, none, none⟩ :=
  ⟨(amount_mismatch_iff [⟨1, "A", 50, 10⟩] [] none
      ⟨some "e", some "p", some "n", some 100, some 10, some 5, some 106, true,
        [⟨1, 2⟩], none⟩
      [⟨1, "A", 2, 50⟩] 100 [⟨1, "A", 50, 8⟩] 10 5 106
      rfl (by decide) rfl rfl rfl rfl).mpr (by decide),
    by decide⟩

/-- C9 counterexample: with a passphrase configured, a notification carrying
exactly the parameter set the outbound generator signed, together with the
signature the generator produced, is REJECTED by the inbound verifier: the
generator sorts the passphrase among the parameters while the verifier appends
`&passphrase=` after the sorted string, so the two canonical strings differ.
Digest and encoding are instantiated at the identity function, under which the
two digest computations are the two canonical strings themselves. -/
theorem passphrase_roundtrip_rejected :
    verifyPayfastSignature id id ⟨"m", "k", "r", "c", "n", some "p"⟩
      (payfastParams ⟨"m", "k", "r", "c", "n", some "p"⟩
        ⟨"1", [], 0, 0, 0, 9, none, none, .Processing, none, none, none⟩)
      (payfastSignature id id ⟨"m", "k", "r", "c", "n", some "p"⟩
        ⟨"1", [], 0, 0, 0, 9, none, none, .Processing, none, none, none⟩) = false := by
  decide

/-- C9 (amended): when no passphrase is configured the outbound generator and
the inbound verifier build the same canonical string, so for every parameter
set, every encoding and every digest function the generator's signature is
accepted; when a passphrase is configured the inbound canonical string is the
outbound one with `&passphrase=` appended again, so the strings differ and any
injective digest rejects the generator's signature. -/
theorem payfast_roundtrip_amended (h enc : String → String) (env : Env)
    (order : Order) :
    (env.passphrase = none →
      verifyPayfastSignature h enc env (payfastParams env order)
        (payfastSignature h enc env order) = true) ∧
    (∀ pp, env.passphrase = some pp → Function.Injective h →
      verifyPayfastSignature h enc env (payfastParams env order)
        (payfastSignature h enc env order) = false) := by
  constructor
  · intro hpp
    unfold verifyPayfastSignature inboundCanonical payfastSignature
    rw [hpp]
    exact beq_self_eq_true _
  · intro pp hpp hinj
    unfold verifyPayfastSignature inboundCanonical payfastSignature
    rw [hpp]
    refine beq_eq_false_iff_ne.mpr (fun heq => ?_)
    have hstr := hinj heq
    have hlen := congrArg String.length hstr
    rw [String.length_append, String.length_append] at hlen
    rw [show ("&passphrase=" : String).length = 12 from rfl] at hlen
    omega

/-- Witness for C9 (amended) at a concrete passphrase-free environment. -/
theorem payfast_roundtrip_amended_witness :
    verifyPayfastSignature id id ⟨"m", "k", "r", "c", "n", none⟩
      (payfastParams ⟨"m", "k", "r", "c", "n", none⟩
        ⟨"1", [], 0, 0, 0, 9, none, none, .Processing, none, none, none⟩)
      (payfastSignature id id ⟨"m", "k", "r", "c", "n", none⟩
        ⟨"1", [], 0, 0, 0, 9, none, none, .Processing, none, none, none⟩) = true :=
  (payfast_roundtrip_amended id id ⟨"m", "k", "r", "c", "n", none⟩
    ⟨"1", [], 0, 0, 0, 9, none, none, .Processing, none, none, none⟩).1 rfl

/-- C10: the required-field check filters on JS falsiness, so a creation
request whose `subtotal`, `shippingCost` or `totalAmount` is present but
equal to 0 is rejected with the missing-required-fields validation error, the
product collection is untouched, and no order is ever created — in
particular an order with zero shipping cost can never be created. -/
theorem zero_required_amount_rejected (db : ProductDB) (coupons : List String)
    (user : Option Nat) (b : Body)
    (h0 : b.subtotal = some 0 ∨ b.shippingCost = some 0 ∨ b.totalAmount = some 0) :
    createOrder db coupons user b = (.validationError (missingFields b), db) ∧
    missingFields b ≠ [] ∧
    ∀ o, (createOrder db coupons user b).1 ≠ .created o := by
  have hmem : "subtotal" ∈ missingFields b ∨ "shippingCost" ∈ missingFields b ∨
      "totalAmount" ∈ missingFields b := by
    rcases h0 with h | h | h
    · refine Or.inl (List.mem_filter.mpr ⟨by decide, ?_⟩)
      rw [show fieldFalsy b "subtotal" = falsyNum b.subtotal from rfl, h]
      decide
    · refine Or.inr (Or.inl (List.mem_filter.mpr ⟨by decide, ?_⟩))
      rw [show fieldFalsy b "shippingCost" = falsyNum b.shippingCost from rfl, h]
      decide
    · refine Or.inr (Or.inr (List.mem_filter.mpr ⟨by decide, ?_⟩))
      rw [show fieldFalsy b "totalAmount" = falsyNum b.totalAmount from rfl, h]
      decide
  have hne : missingFields b ≠ [] := by
    rcases hmem with h | h | h <;> exact List.ne_nil_of_mem h
  have hlen : (missingFields b).length > 0 := List.length_pos.mpr hne
  refine ⟨?_, hne, ?_⟩
  · unfold createOrder
    rw [if_pos hlen]
  · intro o
    unfold createOrder
    rw [if_pos hlen]
    simp

/-- Witness for C10: a request whose only falsy required field is a zero
shipping cost is rejected with the validation error. -/
theorem zero_required_amount_rejected_witness :
    createOrder [⟨1, "A", 50, 10⟩] [] none
      ⟨some "e", some "p", some "n", some 100, some 0, some 0, some 100, true,
        [⟨1, 2⟩], none⟩ =
      (.validationError (missingFields
        ⟨some "e", some "p", some "n", some 100, some 0, some 0, some 100, true,
          [⟨1, 2⟩], none⟩), [⟨1, "A", 50, 10⟩]) ∧
    missingFields
      ⟨some "e", some "p", some "n", some 100, some 0, some 0, some 100, true,
        [⟨1, 2⟩], none⟩ ≠ [] ∧
    ∀ o, (createOrder [⟨1, "A", 50, 10⟩] [] none
      ⟨some "e", some "p", some "n", some 100, some 0, some 0, some 100, true,
        [⟨1, 2⟩], none⟩).1 ≠ .created o :=
  zero_required_amount_rejected _ _ _ _ (Or.inr (Or.inl rfl))

end PeachStore
